import Mathlib

/-!
Shallow embedding of `xcode-build.js`, a supervising wrapper around an
external `xcodebuild` invocation.  The definitions below transcribe the
source's argument resolution, setup validation pipeline, build-descriptor
discovery, device validation, completion/signal handling, error-line
extraction and teardown routine.  Machine strings are `String`; fallible
parsing returns `Option`; the setup pipeline returns `Except` so that the
"exit 1 before spawning" paths are explicit.
-/

namespace XcodeBuild

/-- Characters trimmed by JS `parseInt` before parsing: the ECMAScript
WhiteSpace set (TAB, VT, FF, SP, NBSP U+00A0, ZWNBSP U+FEFF, and the
Unicode Zs space separators U+1680, U+2000–U+200A, U+202F, U+205F,
U+3000) together with the LineTerminator set (LF, CR, LS U+2028,
PS U+2029). -/
def isJsWhitespace (c : Char) : Bool :=
  c = ' ' || c = '\t' || c = '\n' || c = '\r'
    || c.toNat = 0x0B || c.toNat = 0x0C
    || c.toNat = 0xA0 || c.toNat = 0x1680
    || (0x2000 ≤ c.toNat ∧ c.toNat ≤ 0x200A)
    || c.toNat = 0x2028 || c.toNat = 0x2029
    || c.toNat = 0x202F || c.toNat = 0x205F
    || c.toNat = 0x3000 || c.toNat = 0xFEFF

/-- Value of a non-empty run of decimal digits. -/
def digitsVal (ds : List Char) : Nat :=
  ds.foldl (fun n c => 10 * n + (c.toNat - '0'.toNat)) 0

/-- `Number.parseInt(s, 10)` (source line 42): trim leading ECMAScript
whitespace, read an optional sign, then the longest leading run of decimal
digits.  `none` models the `NaN` result when no digit is found; otherwise
the result is the exact mathematical integer denoted by the digit run —
`parseInt` then returns the double `𝔽(signed value)`, whose only effect on
the source's validation is captured separately by `isFiniteDouble`. -/
def parseIntJS (s : String) : Option Int :=
  match s.data.dropWhile isJsWhitespace with
  | '-' :: t =>
      let ds := t.takeWhile Char.isDigit
      if ds.isEmpty then none else some (-(digitsVal ds : Int))
  | '+' :: t =>
      let ds := t.takeWhile Char.isDigit
      if ds.isEmpty then none else some ((digitsVal ds : Int))
  | t =>
      let ds := t.takeWhile Char.isDigit
      if ds.isEmpty then none else some ((digitsVal ds : Int))

/-- JS `String.prototype.endsWith`. -/
def jsEndsWith (s pat : String) : Bool :=
  pat.data.isSuffixOf s.data

/-- Whether `pat` occurs as a contiguous subsequence of `l`. -/
def containsSeq (pat : List Char) : List Char → Bool
  | [] => pat.isEmpty
  | c :: rest => pat.isPrefixOf (c :: rest) || containsSeq pat rest

/-- JS `String.prototype.includes` (substring containment). -/
def jsIncludes (s pat : String) : Bool :=
  containsSeq pat.data s.data

/-- The `ALLOWED_COMMANDS` set (source line 28). -/
def ALLOWED_COMMANDS : List String := ["build", "test", "archive", "clean"]

/-- `String.prototype.toLowerCase` on the ASCII range, which covers the
fixed command alphabet. -/
def jsToLower (s : String) : String :=
  (s.data.map Char.toLower).asString

/-- `(getArg('--command') || 'build').toLowerCase()` (source line 29). -/
def resolvedCommand (commandArg : Option String) : String :=
  jsToLower (commandArg.getD "build")

/-- Source line 30. -/
def usesSimulatorDestination (cmd : String) : Bool :=
  cmd == "build" || cmd == "test"

/-- `getArg('--device') || 'iPhone 16 Pro'` (source line 34). -/
def resolvedDevice (deviceArg : Option String) : String :=
  deviceArg.getD "iPhone 16 Pro"

/-- `command === 'test' ? 600 : 300` (source line 40). -/
def defaultTimeout (cmd : String) : Nat :=
  if cmd = "test" then 600 else 300

/-- `Number.parseInt(timeoutArg ?? String(defaultTimeout), 10)` (source
line 42). -/
def timeoutValue (cmd : String) (timeoutArg : Option String) : Option Int :=
  parseIntJS (timeoutArg.getD (toString (defaultTimeout cmd)))

/-- The least magnitude at which IEEE-754 double rounding (round to
nearest, ties to even) overflows an exact integer to ±Infinity:
`2^1024 − 2^970`. -/
def jsOverflowBound : Int :=
  179769313486231580793728971405303415079934132710037826936173778980444968292764750946649017977587207096330286416692887910946555547851940402630657488671505820681908902000708383676273854845817711531764475730270069855571366959622842914819860834936475292719074168444365510704342711559699508093042880177904174497792

/-- `Number.isFinite` applied to the double `𝔽(m)` that `parseInt` returns
for the exact parsed integer `m`: the result is finite exactly when
`|m| < 2^1024 − 2^970`; at or above that bound rounding yields ±Infinity. -/
def isFiniteDouble (m : Int) : Bool :=
  decide (-jsOverflowBound < m ∧ m < jsOverflowBound)

/-- The check `Number.isFinite(timeout) && timeout > 0` (negation of the
rejection test at source line 86).  For a parsed exact integer `m`,
`𝔽(m) > 0` holds iff `0 < m`, so the test is finiteness of the double plus
positivity of `m`; a `NaN` parse (`none`) fails `Number.isFinite`. -/
def validTimeout (cmd : String) (timeoutArg : Option String) : Bool :=
  match timeoutValue cmd timeoutArg with
  | none => false
  | some t => isFiniteDouble t && decide (0 < t)

/-- A discovered build descriptor: `-workspace "..."` or `-project "..."`. -/
inductive BuildTarget where
  | workspace (file : String)
  | project (file : String)
deriving DecidableEq, Repr

/-- Descriptor discovery (source lines 100–110): the first `.xcworkspace`
entry wins; otherwise the first `.xcodeproj` entry; otherwise none. -/
def findDescriptor (dir : List String) : Option BuildTarget :=
  match dir.find? (fun f => jsEndsWith f ".xcworkspace") with
  | some w => some (BuildTarget.workspace w)
  | none =>
      match dir.find? (fun f => jsEndsWith f ".xcodeproj") with
      | some p => some (BuildTarget.project p)
      | none => none

/-- Result of the device-validation block (source lines 135–149): the
`catch` branch is `toolUnavailable`; a missing substring is `invalidDevice`
carrying the full enumeration output that the source prints. -/
inductive DeviceCheck where
  | passed
  | invalidDevice (fullOutput : String)
  | toolUnavailable
deriving DecidableEq, Repr

/-- Source lines 135–149, with the external `xcrun simctl list` call
abstracted as an `Except` result. -/
def validateDevice (enumResult : Except String String) (device : String) : DeviceCheck :=
  match enumResult with
  | Except.error _ => DeviceCheck.toolUnavailable
  | Except.ok out =>
      if jsIncludes out device then DeviceCheck.passed
      else DeviceCheck.invalidDevice out

/-- The setup-phase failure conditions; each corresponds to one
`process.exit(1)` site in the source. -/
inductive SetupError where
  | missingRequired
  | invalidCommand
  | invalidTimeout
  | missingArchivePath
  | noDescriptor
  | deviceNotFound
  | enumFailed
deriving DecidableEq, Repr

/-- Exit code at each setup-error site: every such site in the source calls
`process.exit(1)` (lines 77, 83, 89, 95, 109, 142, 147). -/
def setupExitCode : SetupError → Int
  | SetupError.missingRequired => 1
  | SetupError.invalidCommand => 1
  | SetupError.invalidTimeout => 1
  | SetupError.missingArchivePath => 1
  | SetupError.noDescriptor => 1
  | SetupError.deviceNotFound => 1
  | SetupError.enumFailed => 1

/-- The raw option values after `getArg` (a missing flag, or a flag whose
following value is absent or empty, yields `none`). -/
structure Args where
  command : Option String
  project : Option String
  scheme : Option String
  device : Option String
  timeoutArg : Option String
  archivePath : Option String
  logFile : Option String
  quiet : Bool
deriving DecidableEq, Repr

/-- The resolved configuration available once every setup check has
passed, i.e. the data the source uses to build and spawn the command. -/
structure Config where
  command : String
  target : BuildTarget
  scheme : String
  device : String
  timeout : Int
  quiet : Bool
deriving DecidableEq, Repr

def mkConfig (a : Args) (bt : BuildTarget) : Config :=
  ⟨resolvedCommand a.command, bt, a.scheme.getD "", resolvedDevice a.device,
    (timeoutValue (resolvedCommand a.command) a.timeoutArg).getD 0, a.quiet⟩

/-- The setup pipeline in source order (lines 74–149): required arguments,
allowed command, timeout validity, archive path, descriptor discovery,
then — for build/test only — device validation.  `dir` is the directory
listing read at lines 100–101 and `enumResult` the enumeration-tool call at
line 137. -/
def setup (a : Args) (dir : List String) (enumResult : Except String String) :
    Except SetupError Config :=
  if a.project = none ∨ a.scheme = none then Except.error SetupError.missingRequired
  else if resolvedCommand a.command ∉ ALLOWED_COMMANDS then
    Except.error SetupError.invalidCommand
  else if validTimeout (resolvedCommand a.command) a.timeoutArg = false then
    Except.error SetupError.invalidTimeout
  else if resolvedCommand a.command = "archive" ∧ a.archivePath = none then
    Except.error SetupError.missingArchivePath
  else
    match findDescriptor dir with
    | none => Except.error SetupError.noDescriptor
    | some bt =>
        if usesSimulatorDestination (resolvedCommand a.command) then
          match validateDevice enumResult (resolvedDevice a.device) with
          | DeviceCheck.passed => Except.ok (mkConfig a bt)
          | DeviceCheck.invalidDevice _ => Except.error SetupError.deviceNotFound
          | DeviceCheck.toolUnavailable => Except.error SetupError.enumFailed
        else Except.ok (mkConfig a bt)

/-- The child process is spawned (source line 181) exactly when setup
reaches the end of the pipeline without exiting. -/
def spawnsChild : Except SetupError Config → Bool
  | Except.ok _ => true
  | Except.error _ => false

/-- Terminal outcome of a supervised run. -/
inductive Outcome where
  | success
  | failure (code : Int)
  | timedOut
  | interrupted
  | terminated
deriving DecidableEq, Repr

/-- The `build.on('close')` handler's classification (source lines
253–289): the timed-out flag is consulted first, then a zero exit code,
then the failure branch carrying the child's code. -/
def closeOutcome (flag : Bool) (code : Int) : Outcome :=
  if flag then Outcome.timedOut
  else if code = 0 then Outcome.success
  else Outcome.failure code

/-- The `cleanup(...)` argument at each terminal site: `cleanup(124)`,
`cleanup(0)`, `cleanup(code)`, `cleanup(130)`, `cleanup(143)` (source lines
258, 264, 288, 295, 300). -/
def outcomeExit : Outcome → Int
  | Outcome.success => 0
  | Outcome.failure c => c
  | Outcome.timedOut => 124
  | Outcome.interrupted => 130
  | Outcome.terminated => 143

/-- The three terminal events of a run: child close (with the timed-out
flag state at that moment and the child's reported code), SIGINT, SIGTERM. -/
inductive RunEvent where
  | childClose (flag : Bool) (code : Int)
  | sigint
  | sigterm
deriving DecidableEq, Repr

def eventOutcome : RunEvent → Outcome
  | RunEvent.childClose f c => closeOutcome f c
  | RunEvent.sigint => Outcome.interrupted
  | RunEvent.sigterm => Outcome.terminated

/-- Wrapper exit code produced for a terminal run event. -/
def runExit (ev : RunEvent) : Int :=
  outcomeExit (eventOutcome ev)

/-- Events touching the `timedOut` flag: the timeout timer's callback
(source line 192, the only assignment after initialisation to `false`) and
any other supervisor activity, which leaves the flag alone. -/
inductive SupervisorEv where
  | timeoutFire
  | dataChunk
deriving DecidableEq, Repr

def timedStep (b : Bool) : SupervisorEv → Bool
  | SupervisorEv.timeoutFire => true
  | SupervisorEv.dataChunk => b

/-- Flag state after a sequence of supervisor events, starting from the
initialisation `let timedOut = false` (source line 187). -/
def timedOutAfter (evs : List SupervisorEv) : Bool :=
  evs.foldl timedStep false

/-- The individual steps of `cleanup` (source lines 220–244), in order. -/
inductive CleanupAction where
  | clearTimeoutTimer
  | clearProgressTimer
  | killProcessGroup
  | closeLogSink
  | scheduleExit (code : Int)
deriving DecidableEq, Repr

/-- One invocation of `cleanup(code)`: the body is straight-line with no
guard variable, so every invocation performs all five steps (the kill and
the log close are wrapped in `try` so they cannot throw, and the
`process.exit` is deferred behind a 100 ms `setTimeout`). -/
def cleanupActions (code : Int) : List CleanupAction :=
  [CleanupAction.clearTimeoutTimer, CleanupAction.clearProgressTimer,
   CleanupAction.killProcessGroup, CleanupAction.closeLogSink,
   CleanupAction.scheduleExit code]

/-- The exit codes scheduled (via `setTimeout(() => process.exit(code), 100)`)
along a trace of cleanup actions. -/
def scheduledExits (trace : List CleanupAction) : List Int :=
  trace.filterMap (fun act =>
    match act with
    | CleanupAction.scheduleExit c => some c
    | _ => none)

/-- `process.exit` is terminal, so of all scheduled exit calls only the
first to fire takes effect. -/
def effectiveExit (trace : List CleanupAction) : Option Int :=
  (scheduledExits trace).head?

/-- Line terminators excluded by `.` and matched by `$` in a JS multiline
regex: LF, CR, LS, PS. -/
def isLineTerminator (c : Char) : Bool :=
  c = '\n' || c = '\r' || c = Char.ofNat 0x2028 || c = Char.ofNat 0x2029

/-- First match of `/error:.*$/m` in a character list: scan for the first
occurrence of the literal marker `error:`, then extend greedily to the end
of that line. -/
def findErrorFrom : List Char → Option (List Char)
  | [] => none
  | c :: rest =>
      if ("error:".data).isPrefixOf (c :: rest) then
        some ((c :: rest).takeWhile (fun d => !isLineTerminator d))
      else findErrorFrom rest

/-- `logContent.match(/error:.*$/m)` (source line 273), returning the
matched text. -/
def extractErrorLine (log : String) : Option String :=
  (findErrorFrom log.data).map List.asString

/-- The failure branch of the close handler (source lines 265–288): a
best-effort log re-read (`none` models a thrown read that the `catch`
swallows) yields an optional extracted diagnostic, a device-hint flag, and
the exit code passed to `cleanup`, which is the child's code regardless of
the read's fate. -/
def failureReport (readResult : Option String) (code : Int) :
    Option String × Bool × Int :=
  match readResult with
  | some content =>
      (extractErrorLine content, jsIncludes content "Unable to find a device", code)
  | none => (none, false, code)

/-- A string that denotes a positive integer in the plain sense: a
non-empty all-decimal-digit numeral of positive value. -/
def denotesPositiveInt (s : String) : Bool :=
  !s.data.isEmpty && s.data.all Char.isDigit && decide (0 < digitsVal s.data)

/-- The numeral `1` followed by 309 zeros: it denotes the positive integer
`10^309`, which exceeds the double-overflow bound, so `parseInt` returns
`Infinity` on it and `Number.isFinite` rejects it. -/
def overflowNumeral : String :=
  ('1' :: List.replicate 309 '0').asString

/-! ## Helper lemmas -/

theorem jsOverflowBound_eq_pow : jsOverflowBound = 2 ^ 1024 - 2 ^ 970 := by
  norm_num [jsOverflowBound]

theorem foldl_timedStep_true (evs : List SupervisorEv) :
    evs.foldl timedStep true = true := by
  induction evs with
  | nil => rfl
  | cons e t ih => cases e <;> simpa [timedStep] using ih

theorem setup_error_of_no_descriptor (a : Args) (dir : List String)
    (e : Except String String) (h : findDescriptor dir = none) :
    ∃ err, setup a dir e = Except.error err := by
  unfold setup
  rw [h]
  split_ifs <;> exact ⟨_, rfl⟩

theorem setupExitCode_eq_one (err : SetupError) : setupExitCode err = 1 := by
  cases err <;> rfl

theorem setup_error_of_invalid_timeout (a : Args) (dir : List String)
    (e : Except String String)
    (h : validTimeout (resolvedCommand a.command) a.timeoutArg = false) :
    ∃ err, setup a dir e = Except.error err := by
  unfold setup
  split_ifs <;> exact ⟨_, rfl⟩

/-! ## Claims -/

/-- Claim C1: the wrapper's exit code is exactly 0 when the child exits 0
without a timeout, the child's own exit code verbatim when the child exits
non-zero, 124 on timeout, 130 on SIGINT, 143 on SIGTERM, and 1 at every
setup/argument-error site. -/
theorem exit_code_mapping :
    runExit (RunEvent.childClose false 0) = 0
    ∧ (∀ c : Int, c ≠ 0 → runExit (RunEvent.childClose false c) = c)
    ∧ (∀ c : Int, runExit (RunEvent.childClose true c) = 124)
    ∧ runExit RunEvent.sigint = 130
    ∧ runExit RunEvent.sigterm = 143
    ∧ (∀ err : SetupError, setupExitCode err = 1) := by
  refine ⟨rfl, ?_, fun c => rfl, rfl, rfl, fun err => by cases err <;> rfl⟩
  intro c hc
  simp [runExit, eventOutcome, closeOutcome, outcomeExit, hc]

/-- Witness for C1 at the canonical non-zero Xcode failure code 65. -/
theorem exit_code_mapping_witness :
    runExit (RunEvent.childClose false 65) = 65 :=
  exit_code_mapping.2.1 65 (by decide)

/-- Claim C2: once the timeout timer has set the timed-out flag it stays
set for the rest of the run, and the completion handler then reports
`TimedOut` and exits 124 regardless of the child's reported exit code. -/
theorem timedOut_flag_overrides :
    (∀ evs1 evs2 : List SupervisorEv,
      timedOutAfter (evs1 ++ SupervisorEv.timeoutFire :: evs2) = true)
    ∧ (∀ c : Int,
      closeOutcome true c = Outcome.timedOut
      ∧ runExit (RunEvent.childClose true c) = 124) := by
  refine ⟨?_, fun c => ⟨rfl, rfl⟩⟩
  intro evs1 evs2
  unfold timedOutAfter
  rw [List.foldl_append, List.foldl_cons]
  exact foldl_timedStep_true evs2

/-- Claim C5: with no explicit timeout option, the effective timeout is
600 seconds for the test operation and 300 seconds for every other
operation. -/
theorem default_timeout_by_operation :
    timeoutValue "test" none = some 600
    ∧ (∀ cmd : String, cmd ≠ "test" → timeoutValue cmd none = some 300) := by
  refine ⟨by decide, ?_⟩
  intro cmd h
  unfold timeoutValue defaultTimeout
  rw [if_neg h]
  decide

/-- Witness for C5 at a non-test operation. -/
theorem default_timeout_witness :
    timeoutValue "archive" none = some 300 :=
  default_timeout_by_operation.2 "archive" (by decide)

/-- Claim C9: on a non-zero child exit the reporter extracts the first
case-sensitive `error:` match up to end of line — a log with first error
line `error: something failed` yields exactly that line — while log-read
failures are swallowed and the child's exit code still reaches cleanup. -/
theorem error_line_extraction :
    extractErrorLine "CompileSwift normal arm64\nerror: something failed\nnote: see above\n"
      = some "error: something failed"
    ∧ extractErrorLine "Error: nope\nERROR: NO\nwarning: w\n" = none
    ∧ extractErrorLine "error: first\nerror: second\n" = some "error: first"
    ∧ (∀ code : Int, failureReport none code = (none, false, code)) :=
  ⟨by decide, by decide, by decide, fun _ => rfl⟩

/-- Claim C10: the `--command` value is lowercased before validation and
use, so operation selectors are accepted case-insensitively: "TEST" is
resolved to "test", passes the allowed-commands check, gets the test
default timeout, and drives the whole setup pipeline identically. -/
theorem command_lowercased :
    resolvedCommand (some "TEST") = "test"
    ∧ resolvedCommand (some "TEST") ∈ ALLOWED_COMMANDS
    ∧ defaultTimeout (resolvedCommand (some "TEST")) = 600
    ∧ (∀ (p s d t ap lg : Option String) (q : Bool) (dir : List String)
        (e : Except String String),
        setup ⟨some "TEST", p, s, d, t, ap, lg, q⟩ dir e =
        setup ⟨some "test", p, s, d, t, ap, lg, q⟩ dir e) :=
  ⟨by decide, by decide, by decide, fun _ _ _ _ _ _ _ _ _ => rfl⟩

/-- Counterexample to claim C3: `cleanup` has no one-shot latch — invoking
it twice (here with codes 0 then 130) re-executes the whole body, killing
the process group a second time and scheduling a second deferred
`process.exit` call. -/
theorem teardown_latch_counterexample :
    (cleanupActions 0 ++ cleanupActions 130).count CleanupAction.killProcessGroup = 2
    ∧ scheduledExits (cleanupActions 0 ++ cleanupActions 130) = [0, 130]
    ∧ effectiveExit (cleanupActions 0 ++ cleanupActions 130) = some 0 := by decide

/-- Claim C3 as amended: teardown is not latched — a double invocation
re-executes every cleanup step and schedules two `process.exit` calls —
but each fallible step is individually try-wrapped and `process.exit` is
terminal, so only the first scheduled exit (the first trigger's code) takes
effect. -/
theorem teardown_double_invocation_amended :
    ∀ c1 c2 : Int,
      scheduledExits (cleanupActions c1 ++ cleanupActions c2) = [c1, c2]
      ∧ effectiveExit (cleanupActions c1 ++ cleanupActions c2) = some c1
      ∧ (cleanupActions c1 ++ cleanupActions c2).count CleanupAction.killProcessGroup = 2 :=
  fun _ _ => ⟨rfl, rfl, rfl⟩

/-- Counterexample to claim C4: a directory holding two descriptors (a
workspace and a project) is not treated as an error — resolution succeeds,
picks the workspace, and the run proceeds to spawn. -/
theorem descriptor_multiple_counterexample :
    (["A.xcworkspace", "B.xcodeproj"].countP
        (fun f => jsEndsWith f ".xcworkspace" || jsEndsWith f ".xcodeproj") = 2)
    ∧ findDescriptor ["A.xcworkspace", "B.xcodeproj"]
        = some (BuildTarget.workspace "A.xcworkspace")
    ∧ spawnsChild (setup ⟨none, some "/p", some "S", none, none, none, none, false⟩
        ["A.xcworkspace", "B.xcodeproj"] (Except.ok "iPhone 16 Pro")) = true := by decide

/-- Claim C4 as amended: resolution fails exactly when the directory holds
no descriptor of either kind; when a workspace entry exists it is selected
over any project entry; and with no descriptor at all the wrapper exits 1
without spawning a child. -/
theorem descriptor_resolution_amended :
    (∀ dir : List String, findDescriptor dir = none ↔
      (dir.find? (fun f => jsEndsWith f ".xcworkspace") = none
        ∧ dir.find? (fun f => jsEndsWith f ".xcodeproj") = none))
    ∧ (∀ (dir : List String) (w : String),
        dir.find? (fun f => jsEndsWith f ".xcworkspace") = some w →
        findDescriptor dir = some (BuildTarget.workspace w))
    ∧ (∀ (a : Args) (dir : List String) (e : Except String String),
        findDescriptor dir = none →
        spawnsChild (setup a dir e) = false
        ∧ ∃ err, setup a dir e = Except.error err ∧ setupExitCode err = 1) := by
  refine ⟨?_, ?_, ?_⟩
  · intro dir
    unfold findDescriptor
    cases h1 : dir.find? (fun f => jsEndsWith f ".xcworkspace") with
    | none =>
        cases h2 : dir.find? (fun f => jsEndsWith f ".xcodeproj") with
        | none => simp
        | some p => simp
    | some w => simp [h1]
  · intro dir w h
    unfold findDescriptor
    rw [h]
  · intro a dir e h
    obtain ⟨err, he⟩ := setup_error_of_no_descriptor a dir e h
    exact ⟨by rw [he]; rfl, err, he, by cases err <;> rfl⟩

/-- Witness for C4's amended claim: workspace preference and the
no-descriptor no-spawn path at concrete inputs. -/
theorem descriptor_resolution_amended_witness :
    findDescriptor ["A.xcworkspace", "other.txt"]
      = some (BuildTarget.workspace "A.xcworkspace")
    ∧ spawnsChild (setup ⟨none, some "/p", some "S", none, none, none, none, false⟩
        ["notes.txt"] (Except.ok "")) = false :=
  ⟨descriptor_resolution_amended.2.1 ["A.xcworkspace", "other.txt"] "A.xcworkspace" (by decide),
   (descriptor_resolution_amended.2.2
      ⟨none, some "/p", some "S", none, none, none, none, false⟩
      ["notes.txt"] (Except.ok "") (by decide)).1⟩

/-- Counterexample to claim C6: the timeout string "3abc" does not denote
a positive integer, yet `parseInt` reads its leading digit and validation
passes — the wrapper does not exit 1 and proceeds all the way to spawning
the child. -/
theorem timeout_validation_counterexample :
    denotesPositiveInt "3abc" = false
    ∧ validTimeout "build" (some "3abc") = true
    ∧ spawnsChild (setup ⟨none, some "/p", some "S", none, some "3abc", none, none, false⟩
        ["App.xcodeproj"] (Except.ok "iPhone 16 Pro")) = true := by decide

set_option maxRecDepth 4096 in
/-- Claim C6 as amended: the wrapper accepts a supplied timeout string
exactly when its `parseInt` parse (ECMAScript whitespace trim, optional
sign, longest leading decimal-digit run) yields a positive value below the
double-overflow bound `2^1024 − 2^970`; so junk-trailed strings like
"3abc" are accepted, while a positive numeral of 310 digits overflows to
Infinity, fails `Number.isFinite` and is rejected; whenever validation
fails, setup errors out with exit code 1 before any child is spawned. -/
theorem timeout_validation_amended :
    (∀ cmd s, validTimeout cmd (some s) = true
      ↔ ∃ t : Int, parseIntJS s = some t ∧ 0 < t ∧ t < jsOverflowBound)
    ∧ (denotesPositiveInt overflowNumeral = true
        ∧ validTimeout "build" (some overflowNumeral) = false)
    ∧ (∀ (a : Args) (dir : List String) (e : Except String String),
        validTimeout (resolvedCommand a.command) a.timeoutArg = false →
        spawnsChild (setup a dir e) = false
        ∧ ∃ err, setup a dir e = Except.error err ∧ setupExitCode err = 1) := by
  refine ⟨?_, by decide, ?_⟩
  · intro cmd s
    unfold validTimeout timeoutValue
    simp only [Option.getD]
    cases hp : parseIntJS s with
    | none => simp [hp]
    | some t =>
        simp only [hp, Bool.and_eq_true, decide_eq_true_eq, isFiniteDouble,
          Option.some.injEq]
        constructor
        · rintro ⟨⟨h1, h2⟩, h3⟩
          exact ⟨t, rfl, h3, h2⟩
        · rintro ⟨t2, ht, h3, h2⟩
          subst ht
          exact ⟨⟨lt_trans (by decide : (-jsOverflowBound : Int) < 0) h3, h2⟩, h3⟩
  · intro a dir e h
    obtain ⟨err, he⟩ := setup_error_of_invalid_timeout a dir e h
    exact ⟨by rw [he]; rfl, err, he, by cases err <;> rfl⟩

/-- Witness for C6's amended claim: a plain numeral and an NBSP-prefixed
numeral (leading U+00A0 is trimmed by `parseInt`) are accepted; the
non-positive string "-5" drives setup to a no-spawn error. -/
theorem timeout_validation_amended_witness :
    validTimeout "build" (some "45") = true
    ∧ validTimeout "build" (some "\u00A042") = true
    ∧ spawnsChild (setup ⟨none, some "/p", some "S", none, some "-5", none, none, false⟩
        ["App.xcodeproj"] (Except.ok "")) = false :=
  ⟨(timeout_validation_amended.1 "build" "45").2 ⟨45, by decide, by decide, by decide⟩,
   (timeout_validation_amended.1 "build" "\u00A042").2 ⟨42, by decide, by decide, by decide⟩,
   (timeout_validation_amended.2.2
      ⟨none, some "/p", some "S", none, some "-5", none, none, false⟩
      ["App.xcodeproj"] (Except.ok "") (by decide)).1⟩

/-- Claim C7: for the archive operation with no archive path, the wrapper
errors out with exit code 1 before descriptor discovery — the result is
identical for any directory listing (and any enumeration result), no child
is spawned, and the exit code is 1. -/
theorem archive_path_precedes_discovery :
    ∀ (a : Args) (dir1 dir2 : List String) (e1 e2 : Except String String),
      resolvedCommand a.command = "archive" → a.archivePath = none →
      setup a dir1 e1 = setup a dir2 e2
      ∧ spawnsChild (setup a dir1 e1) = false
      ∧ ∃ err, setup a dir1 e1 = Except.error err ∧ setupExitCode err = 1 := by
  intro a dir1 dir2 e1 e2 hc hp
  have key : ∀ (dir : List String) (e : Except String String),
      setup a dir e =
        (if a.project = none ∨ a.scheme = none then
          Except.error SetupError.missingRequired
        else if validTimeout "archive" a.timeoutArg = false then
          Except.error SetupError.invalidTimeout
        else Except.error SetupError.missingArchivePath) := by
    intro dir e
    unfold setup
    rw [hc]
    split_ifs with h1 h2 h3 h4 <;>
      first
        | rfl
        | exact (h2 (by decide)).elim
        | exact (h4 ⟨rfl, hp⟩).elim
  refine ⟨by rw [key dir1 e1, key dir2 e2], ?_, ?_⟩
  · rw [key dir1 e1]
    split_ifs <;> rfl
  · rw [key dir1 e1]
    split_ifs
    · exact ⟨_, rfl, rfl⟩
    · exact ⟨_, rfl, rfl⟩
    · exact ⟨_, rfl, rfl⟩

/-- Witness for C7: an archive request without a path yields the same
error for two different directory listings and enumeration results, and
never spawns. -/
theorem archive_path_precedes_discovery_witness :
    setup ⟨some "archive", some "/p", some "S", none, none, none, none, false⟩
        ["A.xcworkspace"] (Except.ok "d")
      = setup ⟨some "archive", some "/p", some "S", none, none, none, none, false⟩
        ["B.xcodeproj"] (Except.error "boom")
    ∧ spawnsChild (setup ⟨some "archive", some "/p", some "S", none, none, none, none, false⟩
        ["A.xcworkspace"] (Except.ok "d")) = false := by
  have h := archive_path_precedes_discovery
    ⟨some "archive", some "/p", some "S", none, none, none, none, false⟩
    ["A.xcworkspace"] ["B.xcodeproj"] (Except.ok "d") (Except.error "boom")
    (by decide) rfl
  exact ⟨h.1, h.2.1⟩

/-- Claim C8: device validation runs only for build/test (setup is
independent of the enumeration result otherwise); a device name missing
from the enumeration output is an `InvalidDevice` condition carrying the
full output, an enumeration-tool failure is the distinct `ToolUnavailable`
condition, and each is fatal with exit 1 before any child is spawned. -/
theorem device_validation_contract :
    (usesSimulatorDestination "build" = true
      ∧ usesSimulatorDestination "test" = true
      ∧ usesSimulatorDestination "archive" = false
      ∧ usesSimulatorDestination "clean" = false)
    ∧ (∀ (a : Args) (dir : List String) (e1 e2 : Except String String),
        usesSimulatorDestination (resolvedCommand a.command) = false →
        setup a dir e1 = setup a dir e2)
    ∧ (∀ out d : String, jsIncludes out d = false →
        validateDevice (Except.ok out) d = DeviceCheck.invalidDevice out)
    ∧ (∀ msg d : String,
        validateDevice (Except.error msg) d = DeviceCheck.toolUnavailable)
    ∧ (∀ (a : Args) (dir : List String) (out : String),
        usesSimulatorDestination (resolvedCommand a.command) = true →
        jsIncludes out (resolvedDevice a.device) = false →
        spawnsChild (setup a dir (Except.ok out)) = false
        ∧ ∃ err, setup a dir (Except.ok out) = Except.error err ∧ setupExitCode err = 1)
    ∧ (∀ (a : Args) (dir : List String) (msg : String),
        usesSimulatorDestination (resolvedCommand a.command) = true →
        spawnsChild (setup a dir (Except.error msg)) = false
        ∧ ∃ err, setup a dir (Except.error msg) = Except.error err ∧ setupExitCode err = 1)
    ∧ SetupError.deviceNotFound ≠ SetupError.enumFailed := by
  refine ⟨by decide, ?_, ?_, fun _ _ => rfl, ?_, ?_, by decide⟩
  · intro a dir e1 e2 h
    unfold setup
    rw [h]
    rfl
  · intro out d h
    unfold validateDevice
    simp [h]
  · intro a dir out h hinc
    have hv : validateDevice (Except.ok out) (resolvedDevice a.device)
        = DeviceCheck.invalidDevice out := by
      simp [validateDevice, hinc]
    have key : ∃ err, setup a dir (Except.ok out) = Except.error err := by
      unfold setup
      rw [h, hv]
      split_ifs with hA hB hC hD hE <;>
        first
          | exact ⟨_, rfl⟩
          | exact absurd rfl hE
          | (cases hd : findDescriptor dir with
              | none => exact ⟨_, rfl⟩
              | some bt => exact ⟨_, rfl⟩)
    obtain ⟨err, he⟩ := key
    exact ⟨by rw [he]; rfl, err, he, by cases err <;> rfl⟩
  · intro a dir msg h
    have key : ∃ err, setup a dir (Except.error msg) = Except.error err := by
      unfold setup
      rw [h]
      split_ifs with hA hB hC hD hE <;>
        first
          | exact ⟨_, rfl⟩
          | exact absurd rfl hE
          | (cases hd : findDescriptor dir with
              | none => exact ⟨_, rfl⟩
              | some bt => exact ⟨_, rfl⟩)
    obtain ⟨err, he⟩ := key
    exact ⟨by rw [he]; rfl, err, he, by cases err <;> rfl⟩

/-- Witness for C8: an absent device name is rejected with the full
output attached; setup without a simulator destination ignores the
enumeration result; build with a failing enumeration tool never spawns. -/
theorem device_validation_contract_witness :
    validateDevice (Except.ok "iPhone 15") "iPhone 16 Pro"
      = DeviceCheck.invalidDevice "iPhone 15"
    ∧ setup ⟨some "clean", some "/p", some "S", none, none, none, none, false⟩
        ["A.xcodeproj"] (Except.ok "list")
      = setup ⟨some "clean", some "/p", some "S", none, none, none, none, false⟩
        ["A.xcodeproj"] (Except.error "boom")
    ∧ spawnsChild (setup ⟨some "test", some "/p", some "S", none, none, none, none, false⟩
        ["A.xcodeproj"] (Except.error "spawn xcrun ENOENT")) = false := by
  obtain ⟨-, h2, h3, -, -, h6, -⟩ := device_validation_contract
  exact ⟨h3 "iPhone 15" "iPhone 16 Pro" (by decide),
    h2 ⟨some "clean", some "/p", some "S", none, none, none, none, false⟩
      ["A.xcodeproj"] (Except.ok "list") (Except.error "boom") (by decide),
    (h6 ⟨some "test", some "/p", some "S", none, none, none, none, false⟩
      ["A.xcodeproj"] "spawn xcrun ENOENT" (by decide)).1⟩

end XcodeBuild
